import Mathlib

/-!
Shallow embedding of the per-image cache decision engine of the
podman-compose-cache action (src/docker-compose-service-processing.ts,
src/docker-command.ts interface, src/cache.ts interface, src/index.ts).

External operations (registry inspection, pull, save/load, cache store
restore/save) are modelled by a `World` record holding the outcome each
call site observes during one processing attempt; the processor is then a
pure function from a `World` and a service definition to a `ServiceResult`
together with the ordered trace of external effects it performed.
-/

namespace ComposeCache

/-- Docker image manifest information (docker-command.ts `DockerImageManifest`):
only the optional `digest` field is used by the decision logic. -/
structure DockerImageManifest where
  digest : Option String
deriving Repr, DecidableEq

/-- Local image metadata (docker-command.ts `DockerImageMetadata`): the `Size`
field, used only for reporting. -/
structure DockerImageMetadata where
  size : Nat
deriving Repr, DecidableEq

/-- Result of a cache store operation (cache.ts `CacheOperationResult`). -/
structure CacheOperationResult where
  success : Bool
  cacheKey : Option String
deriving Repr, DecidableEq

/-- A compose service entry (docker-compose-file.ts `ComposeService`). -/
structure ComposeService where
  image : String
  platform : Option String
deriving Repr, DecidableEq

/-- Result of processing a single service
(docker-compose-service-processing.ts `ServiceResult`). -/
structure ServiceResult where
  success : Bool
  restoredFromCache : Bool
  imageName : String
  cacheKey : String
  digest : Option String
  platform : Option String
  error : Option String
  imageSize : Option Nat
deriving Repr, DecidableEq

/-- Result of pulling and saving an image
(docker-compose-service-processing.ts `ImageOperationResult`). -/
structure ImageOperationResult where
  success : Bool
  imageSize : Option Nat
  error : Option String
deriving Repr, DecidableEq

/-- JavaScript truthiness of a `string | undefined` value: `undefined` and the
empty string are falsy. -/
def jsTruthyStr : Option String → Bool
  | none => false
  | some s => !s.isEmpty

/-- JavaScript template-literal rendering of a `string | undefined` value:
`undefined` renders as the text "undefined". -/
def optStr : Option String → String
  | none => "undefined"
  | some s => s

/-- JavaScript `s.split(c)` for a one-character separator: splits at every
occurrence, never returns an empty list, and `"".split(c) = [""]`. -/
def splitOnChar (c : Char) : List Char → List (List Char)
  | [] => [[]]
  | x :: xs =>
    if x = c then [] :: splitOnChar c xs
    else
      match splitOnChar c xs with
      | [] => [[x]]
      | y :: ys => (x :: y) :: ys

/-- The image-reference destructure of processService:
`const [imageNamePart, imageTagOrLatest = 'latest'] = completeImageName.split(':')`.
The first segment is the name, the second the tag; with no `:` the tag
defaults to "latest"; segments beyond the second are discarded. -/
def parseImageName (s : String) : String × String :=
  match splitOnChar ':' s.toList with
  | [] => ("", "latest")
  | [n] => (n.asString, "latest")
  | n :: t :: _ => (n.asString, t.asString)

/-- Modelled from the spec: sanitization of the image name used inside cache
keys and paths (cache.ts is not among the repository's source files; §4.1 and
the README describe a sanitized name such as `myregistry-com-myapp`): every
character that is not alphanumeric is replaced by `-`. -/
def sanitizeImageName (name : String) : String :=
  (name.toList.map (fun c => if c.isAlphanum then c else '-')).asString

/-- Modelled from the spec: `os/arch/variant` parsed out of the platform
string, defaulting to the host platform's equivalents when absent (cache.ts is
not among the repository's source files; §4.1). -/
def parsePlatformParts (targetPlatformString : Option String) : String × String × String :=
  match targetPlatformString with
  | none => ("linux", "amd64", "none")
  | some s =>
    match splitOnChar '/' s.toList with
    | [] => ("linux", "amd64", "none")
    | [o] => (o.asString, "amd64", "none")
    | [o, a] => (o.asString, a.asString, "none")
    | o :: a :: v :: _ => (o.asString, a.asString, v.asString)

/-- Modelled from the spec: short fixed-length digest segment of a cache key —
the digest with its algorithm label stripped, truncated to 12 characters, or
the literal `none` when no digest is available (cache.ts is not among the
repository's source files; §4.1 and the README's cache-key table). -/
def extractDigestPrefix (digest : Option String) : String :=
  match digest with
  | none => "none"
  | some d => (if d.startsWith "sha256:" then d.drop 7 else d).take 12

/-- Modelled from the spec: the cache key with the digest segment elided, used
as the fallback restore key (cache.ts is not among the repository's source
files; §4.1). -/
def generateCacheKeyNoDigest (cacheKeyPfx imageName imageTag : String)
    (targetPlatformString : Option String) : String :=
  let parts := parsePlatformParts targetPlatformString
  cacheKeyPfx ++ "-" ++ sanitizeImageName imageName ++ "-" ++ imageTag ++ "-" ++
    parts.1 ++ "-" ++ parts.2.1 ++ "-" ++ parts.2.2

/-- Modelled from the spec: the full cache key
`{prefix}-{sanitizedName}-{tag}-{os}-{arch}-{variant}-{digestOrNone}`
(cache.ts is not among the repository's source files; §4.1). -/
def generateCacheKey (cacheKeyPfx imageName imageTag : String)
    (targetPlatformString : Option String) (digest : Option String) : String :=
  generateCacheKeyNoDigest cacheKeyPfx imageName imageTag targetPlatformString ++ "-" ++
    extractDigestPrefix digest

/-- Modelled from the spec: the manifest cache key, the image cache key with a
manifest suffix (cache.ts is not among the repository's source files). -/
def generateManifestCacheKey (cacheKeyPfx imageName imageTag : String)
    (targetPlatformString : Option String) (digest : Option String) : String :=
  generateCacheKey cacheKeyPfx imageName imageTag targetPlatformString digest ++ "-manifest"

/-- Modelled from the spec: filesystem path of the image archive, parameterized
like the keys so paths and keys correspond 1:1 (cache.ts is not among the
repository's source files; §4.1). -/
def generateTarPath (imageName imageTag : String)
    (targetPlatformString : Option String) (digest : Option String) : String :=
  let parts := parsePlatformParts targetPlatformString
  "/tmp/" ++ sanitizeImageName imageName ++ "-" ++ imageTag ++ "-" ++
    parts.1 ++ "-" ++ parts.2.1 ++ "-" ++ parts.2.2 ++ "-" ++
    extractDigestPrefix digest ++ ".tar"

/-- Modelled from the spec: filesystem path of the manifest snapshot (cache.ts
is not among the repository's source files; §4.1). -/
def generateManifestPath (imageName imageTag : String)
    (targetPlatformString : Option String) (digest : Option String) : String :=
  let parts := parsePlatformParts targetPlatformString
  "/tmp/" ++ sanitizeImageName imageName ++ "-" ++ imageTag ++ "-" ++
    parts.1 ++ "-" ++ parts.2.1 ++ "-" ++ parts.2.2 ++ "-" ++
    extractDigestPrefix digest ++ "-manifest.json"

/-- One observable external effect of a processing attempt. -/
inductive Event where
  | pull (image : String) (platform : Option String)
  | inspectRemote (image : String)
  | inspectLocal (image : String)
  | saveTar (image path : String)
  | saveManifest (manifestDigest : Option String) (path key : String)
  | saveCache (path key : String)
  | restoreCache (path key : String) (restoreKeys : List String)
  | loadTar (path : String)
  | readManifest (path : String)
  | warn (message : String)
deriving Repr, DecidableEq

/-- Whether an event is an image pull. -/
def Event.isPull : Event → Bool
  | .pull _ _ => true
  | _ => false

/-- Whether an event writes to the cache store. -/
def Event.isCacheSave : Event → Bool
  | .saveManifest _ _ _ => true
  | .saveCache _ _ => true
  | _ => false

/-- Whether an event touches the cache store at all. -/
def Event.isCacheAccess : Event → Bool
  | .saveManifest _ _ _ => true
  | .saveCache _ _ => true
  | .restoreCache _ _ _ => true
  | _ => false

/-- Whether an event is a cache-store restore attempt. -/
def Event.isRestore : Event → Bool
  | .restoreCache _ _ _ => true
  | _ => false

/-- The outcomes every external call site observes during one processing
attempt of one image. Each field corresponds to one call site of
docker-compose-service-processing.ts; at most one of the alternative branches
fires per attempt. -/
structure World where
  inspectRemoteInitial : Option DockerImageManifest
  pullOk : Bool
  inspectRemoteAfterPull : Option DockerImageManifest
  saveTarOk : Bool
  saveManifestOk : Bool
  saveCacheResult : CacheOperationResult
  inspectLocalResult : Option DockerImageMetadata
  restoreImageResult : CacheOperationResult
  restoreManifestResult : CacheOperationResult
  restoreFallbackResult : CacheOperationResult
  loadTarOk : Bool
  loadFallbackOk : Bool
  readManifestResult : Option DockerImageManifest
  inspectRemoteValidate : Option DockerImageManifest
deriving Repr, DecidableEq

/-- The digest the guard `if (!manifest || !manifest.digest)` of processService
accepts: present and non-empty (JavaScript truthiness). -/
def truthyDigest (m : Option DockerImageManifest) : Option String :=
  match m.bind DockerImageManifest.digest with
  | none => none
  | some d => if d.isEmpty then none else some d

/-- `pullAndCacheImage` of docker-compose-service-processing.ts: pull, re-verify
the remote digest, save to archive, persist manifest snapshot and archive to
the cache store (both results ignored beyond logging), inspect locally for
size. Returns the operation result and the trace of external effects. -/
def pullAndCacheImage (w : World) (completeImageName : String)
    (platformString : Option String)
    (imageCacheKey manifestCacheKey imageTarPath manifestPath imageDigest : String)
    (manifest : DockerImageManifest) : ImageOperationResult × List Event :=
  if !w.pullOk then
    ({ success := false, imageSize := none,
       error := some ("Failed to pull image: " ++ completeImageName) },
     [.pull completeImageName platformString])
  else
    let newImageDigest := w.inspectRemoteAfterPull.bind DockerImageManifest.digest
    if newImageDigest ≠ some imageDigest then
      ({ success := false, imageSize := none,
         error := some ("Digest mismatch for " ++ completeImageName ++ ": expected " ++
           imageDigest ++ ", got " ++ optStr newImageDigest) },
       [.pull completeImageName platformString, .inspectRemote completeImageName])
    else if !w.saveTarOk then
      ({ success := false, imageSize := none,
         error := some ("Failed to save image to tar: " ++ completeImageName) },
       [.pull completeImageName platformString, .inspectRemote completeImageName,
        .saveTar completeImageName imageTarPath])
    else
      ({ success := true, imageSize := w.inspectLocalResult.map DockerImageMetadata.size,
         error := none },
       [.pull completeImageName platformString, .inspectRemote completeImageName,
        .saveTar completeImageName imageTarPath,
        .saveManifest manifest.digest manifestPath manifestCacheKey,
        .saveCache imageTarPath imageCacheKey,
        .inspectLocal completeImageName])

/-- `tryRestoreFromCacheWithoutDigest` of docker-compose-service-processing.ts:
the degraded fallback when the registry yields no digest — restore by the
digest-less key used as a restore-key prefix, load the archive, inspect for
size; `none` when the restore or the load fails. -/
def tryRestoreFromCacheWithoutDigest (w : World)
    (completeImageName imageNameWithoutTag imageTag : String)
    (platform : Option String) (cacheKeyPfx : String) :
    Option ServiceResult × List Event :=
  let cacheKeyNoDigest := generateCacheKeyNoDigest cacheKeyPfx imageNameWithoutTag imageTag platform
  let fallbackTarPath := generateTarPath imageNameWithoutTag imageTag platform (some "fallback")
  let ev0 : List Event :=
    [.restoreCache fallbackTarPath (cacheKeyNoDigest ++ "-fallback") [cacheKeyNoDigest]]
  if !w.restoreFallbackResult.success then
    (none, ev0)
  else if !w.loadFallbackOk then
    (none, ev0 ++ [.loadTar fallbackTarPath])
  else
    (some { success := true, restoredFromCache := true, imageName := completeImageName,
            cacheKey := w.restoreFallbackResult.cacheKey.getD "",
            digest := none, platform := platform, error := none,
            imageSize := w.inspectLocalResult.map DockerImageMetadata.size },
     ev0 ++ [.loadTar fallbackTarPath, .inspectLocal completeImageName])

/-- `processCacheHit` of docker-compose-service-processing.ts: load the
restored archive, then — unless digest verification is skipped or no manifest
snapshot was restored — compare the cached manifest's digest against a fresh
remote manifest; on mismatch issue a best-effort pull whose failure is only a
warning. All results below carry `cacheKey := ""`; the caller overwrites it. -/
def processCacheHit (w : World) (completeImageName : String)
    (imageTarPath manifestPath : String) (manifestCacheHitKey : Option String)
    (skipLatestCheck : Bool) (imageDigest : String) (platform : Option String) :
    ServiceResult × List Event :=
  if !w.loadTarOk then
    ({ success := false, restoredFromCache := false, imageName := completeImageName,
       cacheKey := "", digest := some imageDigest, platform := platform,
       error := some ("Failed to load image from cache: " ++ completeImageName),
       imageSize := none },
     [.loadTar imageTarPath])
  else
    let imageSize := w.inspectLocalResult.map DockerImageMetadata.size
    let okResult : ServiceResult :=
      { success := true, restoredFromCache := true, imageName := completeImageName,
        cacheKey := "", digest := some imageDigest, platform := platform,
        error := none, imageSize := imageSize }
    let ev0 : List Event := [.loadTar imageTarPath, .inspectLocal completeImageName]
    if skipLatestCheck then
      (okResult, ev0)
    else if !jsTruthyStr manifestCacheHitKey then
      (okResult, ev0)
    else
      let ev1 := ev0 ++ [.readManifest manifestPath, .inspectRemote completeImageName]
      match w.readManifestResult, w.inspectRemoteValidate with
      | some cachedManifest, some remoteManifest =>
        if cachedManifest.digest = remoteManifest.digest then
          (okResult, ev1)
        else
          if !w.pullOk then
            (okResult, ev1 ++ [.pull completeImageName platform,
              .warn ("Failed to pull updated image " ++ completeImageName)])
          else
            (okResult, ev1 ++ [.pull completeImageName platform])
      | _, _ => (okResult, ev1)

/-- The failure outcome of processService when no digest could be resolved and
no fallback applied. -/
def couldNotGetDigestResult (completeImageName : String) (platform : Option String) :
    ServiceResult :=
  { success := false, restoredFromCache := false, imageName := completeImageName,
    cacheKey := "", digest := none, platform := platform,
    error := some ("Could not get digest for " ++ completeImageName), imageSize := none }

/-- The staleness warning logged when the degraded fallback succeeds. -/
def stalenessWarning (completeImageName : String) : String :=
  "Registry unavailable for " ++ completeImageName ++ ". Using cached version. " ++
    "Image may be outdated. Enable network access or set force-refresh to pull fresh images."

/-- The registry-unavailable branch of processService: attempt the degraded
fallback when `skipLatestCheck && !forceRefresh`, otherwise (or when the
fallback yields nothing) fail with the generic could-not-get-digest error. -/
def processServiceNoDigest (w : World)
    (completeImageName imageNameWithoutTag imageTagOrLatest : String)
    (platform : Option String) (cacheKeyPfx : String)
    (skipLatestCheck forceRefresh : Bool) : ServiceResult × List Event :=
  if skipLatestCheck && !forceRefresh then
    let fb := tryRestoreFromCacheWithoutDigest w completeImageName imageNameWithoutTag
      imageTagOrLatest platform cacheKeyPfx
    match fb.1 with
    | some fallbackResult =>
      (fallbackResult, fb.2 ++ [.warn (stalenessWarning completeImageName)])
    | none =>
      (couldNotGetDigestResult completeImageName platform,
       fb.2 ++ [.warn ("Could not get digest for " ++ completeImageName ++ ", skipping cache")])
  else
    (couldNotGetDigestResult completeImageName platform,
     [.warn ("Could not get digest for " ++ completeImageName ++ ", skipping cache")])

/-- The digest-resolved part of processService: derive the key set, then branch
into the force-refresh pull, the cache-miss pull, or the cache-hit validation;
pull-path outcomes carry the derived image cache key and the resolved digest,
and the hit result's cacheKey is overwritten with the derived key. -/
def processServiceWithDigest (w : World)
    (completeImageName imageNameWithoutTag imageTagOrLatest : String)
    (platform : Option String) (cacheKeyPfx : String)
    (skipLatestCheck forceRefresh : Bool) (imageDigest : String) :
    ServiceResult × List Event :=
  let imageCacheKey :=
    generateCacheKey cacheKeyPfx imageNameWithoutTag imageTagOrLatest platform (some imageDigest)
  let imageTarPath :=
    generateTarPath imageNameWithoutTag imageTagOrLatest platform (some imageDigest)
  let manifestCacheKey :=
    generateManifestCacheKey cacheKeyPfx imageNameWithoutTag imageTagOrLatest platform
      (some imageDigest)
  let manifestPath :=
    generateManifestPath imageNameWithoutTag imageTagOrLatest platform (some imageDigest)
  if forceRefresh then
    let pr := pullAndCacheImage w completeImageName platform imageCacheKey manifestCacheKey
      imageTarPath manifestPath imageDigest ⟨some imageDigest⟩
    ({ success := pr.1.success, restoredFromCache := false, imageName := completeImageName,
       cacheKey := imageCacheKey, digest := some imageDigest, platform := platform,
       error := pr.1.error, imageSize := pr.1.imageSize }, pr.2)
  else
    let evRestore : List Event :=
      [.restoreCache imageTarPath imageCacheKey [],
       .restoreCache manifestPath manifestCacheKey []]
    if !w.restoreImageResult.success then
      let pr := pullAndCacheImage w completeImageName platform imageCacheKey manifestCacheKey
        imageTarPath manifestPath imageDigest ⟨some imageDigest⟩
      ({ success := pr.1.success, restoredFromCache := false, imageName := completeImageName,
         cacheKey := imageCacheKey, digest := some imageDigest, platform := platform,
         error := pr.1.error, imageSize := pr.1.imageSize }, evRestore ++ pr.2)
    else
      let hit := processCacheHit w completeImageName imageTarPath manifestPath
        w.restoreManifestResult.cacheKey skipLatestCheck imageDigest platform
      ({ hit.1 with cacheKey := imageCacheKey }, evRestore ++ hit.2)

/-- `processService` of docker-compose-service-processing.ts: parse the image
reference (rejecting an empty name part before any I/O), resolve the remote
digest, and dispatch to the registry-unavailable branch or the digest-resolved
branch. The trace of every non-rejected attempt starts with the initial remote
manifest inspection. -/
def processService (w : World) (serviceDefinition : ComposeService)
    (cacheKeyPfx : String) (skipLatestCheck : Bool) (forceRefresh : Bool) :
    ServiceResult × List Event :=
  let completeImageName := serviceDefinition.image
  let parsed := parseImageName completeImageName
  if parsed.1.isEmpty then
    ({ success := false, restoredFromCache := false, imageName := completeImageName,
       cacheKey := "", digest := none, platform := serviceDefinition.platform,
       error := some ("Invalid image name format: " ++ completeImageName),
       imageSize := none }, [])
  else
    let core :=
      match truthyDigest w.inspectRemoteInitial with
      | none =>
        processServiceNoDigest w completeImageName parsed.1 parsed.2
          serviceDefinition.platform cacheKeyPfx skipLatestCheck forceRefresh
      | some imageDigest =>
        processServiceWithDigest w completeImageName parsed.1 parsed.2
          serviceDefinition.platform cacheKeyPfx skipLatestCheck forceRefresh imageDigest
    (core.1, .inspectRemote completeImageName :: core.2)

/-- One image of a batch: its service definition together with the external
outcomes its own processing attempt observes. -/
structure BatchItem where
  world : World
  service : ComposeService
deriving Repr, DecidableEq

/-- The batch coordination of `run` (index.ts): every discovered image is
processed and the outcomes are collected in input order; no image's outcome
depends on a sibling. -/
def run (items : List BatchItem) (cacheKeyPfx : String)
    (skipLatestCheck forceRefresh : Bool) : List ServiceResult :=
  items.map fun it =>
    (processService it.world it.service cacheKeyPfx skipLatestCheck forceRefresh).1

/-- A benign world: digest resolves, pull/save/load succeed, the exact-key
cache restores miss, the fallback restore misses. -/
def wDefault : World :=
  { inspectRemoteInitial := some ⟨some "sha256:0123456789abcdef"⟩
    pullOk := true
    inspectRemoteAfterPull := some ⟨some "sha256:0123456789abcdef"⟩
    saveTarOk := true
    saveManifestOk := true
    saveCacheResult := ⟨true, some "key"⟩
    inspectLocalResult := some ⟨100⟩
    restoreImageResult := ⟨false, none⟩
    restoreManifestResult := ⟨false, none⟩
    restoreFallbackResult := ⟨false, none⟩
    loadTarOk := true
    loadFallbackOk := true
    readManifestResult := some ⟨some "sha256:0123456789abcdef"⟩
    inspectRemoteValidate := some ⟨some "sha256:0123456789abcdef"⟩ }

/-- A simple service definition used to instantiate the theorems. -/
def svcNginx : ComposeService := ⟨"nginx:latest", none⟩

/-- A world realizing the cache-hit digest-mismatch scenario: archive and
manifest snapshot restore, the archive loads, the cached digest differs from
the fresh remote digest, and the refresh pull fails. -/
def wMismatch : World :=
  { wDefault with
    restoreImageResult := ⟨true, some "imageKey"⟩
    restoreManifestResult := ⟨true, some "manifestKey"⟩
    pullOk := false
    inspectRemoteValidate := some ⟨some "sha256:fedcba9876543210"⟩ }

/-- A world on the force-refresh path where pull, digest re-verification and
archive save succeed but manifest persistence, archive persistence and local
inspection all fail. -/
def wPersistFail : World :=
  { wDefault with
    saveManifestOk := false
    saveCacheResult := ⟨false, none⟩
    inspectLocalResult := none }

/-- A world where the registry is unreachable and the degraded fallback finds
and loads a prefix-matched cache entry. -/
def wFallback : World :=
  { wDefault with
    inspectRemoteInitial := none
    restoreFallbackResult := ⟨true, some "matchedKey"⟩ }

/-- A world where the registry is unreachable, a fallback cache entry is
restored, but loading its archive fails. -/
def wFallbackLoadFail : World :=
  { wFallback with loadFallbackOk := false }

/-- A world where the initial digest resolves but the post-pull remote
inspection yields no manifest. -/
def wVanishingRegistry : World :=
  { wDefault with inspectRemoteAfterPull := none }

theorem splitOnChar_ne_nil (c : Char) (l : List Char) : splitOnChar c l ≠ [] := by
  induction l with
  | nil => simp [splitOnChar]
  | cons x xs ih =>
    simp only [splitOnChar]
    split
    · simp
    · split
      · simp
      · simp

theorem splitOnChar_not_mem (c : Char) (l : List Char) (h : c ∉ l) :
    splitOnChar c l = [l] := by
  induction l with
  | nil => rfl
  | cons x xs ih =>
    have hx : x ≠ c := by rintro rfl; exact h (List.mem_cons_self _ _)
    have hxs : c ∉ xs := fun hm => h (List.mem_cons_of_mem _ hm)
    simp [splitOnChar, hx, ih hxs]

theorem splitOnChar_append (c : Char) (n r : List Char) (h : c ∉ n) :
    splitOnChar c (n ++ c :: r) = n :: splitOnChar c r := by
  induction n with
  | nil => simp [splitOnChar]
  | cons x xs ih =>
    have hx : x ≠ c := by rintro rfl; exact h (List.mem_cons_self _ _)
    have hxs : c ∉ xs := fun hm => h (List.mem_cons_of_mem _ hm)
    simp [splitOnChar, hx, ih hxs]

theorem splitOnChar_head_takeWhile (c : Char) (l : List Char) :
    (splitOnChar c l).headD [] = l.takeWhile (fun x => x != c) := by
  induction l with
  | nil => rfl
  | cons x xs ih =>
    by_cases hx : x = c
    · subst hx; simp [splitOnChar, List.takeWhile_cons]
    · obtain ⟨y, ys, heq⟩ : ∃ y ys, splitOnChar c xs = y :: ys := by
        cases hsp : splitOnChar c xs with
        | nil => exact absurd hsp (splitOnChar_ne_nil c xs)
        | cons y ys => exact ⟨y, ys, rfl⟩
      have hy : y = xs.takeWhile (fun x => x != c) := by
        have := ih
        rw [heq] at this
        simpa using this
      simp [splitOnChar, hx, heq, List.takeWhile_cons, hy]

theorem asString_toList (s : String) : s.toList.asString = s := rfl

/-- C2 (counterexample): the image string is NOT split on the last `:` — on
`registry.example.com:5000/nginx:1.25` the processor derives name
`registry.example.com` and tag `5000/nginx`, not the claimed
`registry.example.com:5000/nginx` with tag `1.25`. -/
theorem parseImageName_counterexample :
    parseImageName "registry.example.com:5000/nginx:1.25" =
      ("registry.example.com", "5000/nginx") ∧
    parseImageName "registry.example.com:5000/nginx:1.25" ≠
      ("registry.example.com:5000/nginx", "1.25") := by
  constructor
  · rfl
  · decide

/-- C2 (amended): the ImageReference is derived by splitting the raw image
string on the FIRST `:` — the name is the maximal colon-free prefix, the tag is
the segment between the first and second `:` (the rest is discarded) — and when
the string contains no `:` the tag defaults to "latest". -/
theorem parseImageName_splits_on_first_colon (s : String) :
    (':' ∉ s.toList → parseImageName s = (s, "latest")) ∧
    (∀ n t : List Char, s.toList = n ++ ':' :: t → ':' ∉ n →
      parseImageName s = (n.asString, (t.takeWhile (fun x => x != ':')).asString)) := by
  constructor
  · intro h
    have h' : splitOnChar ':' s.data = [s.data] :=
      splitOnChar_not_mem ':' s.data (by simpa [String.toList] using h)
    simp [parseImageName, String.toList, h']
    exact asString_toList s
  · intro n t heq hn
    have heq' : s.data = n ++ ':' :: t := by simpa [String.toList] using heq
    obtain ⟨y, ys, hys⟩ : ∃ y ys, splitOnChar ':' t = y :: ys := by
      cases hsp : splitOnChar ':' t with
      | nil => exact absurd hsp (splitOnChar_ne_nil ':' t)
      | cons y ys => exact ⟨y, ys, rfl⟩
    have hy : y = t.takeWhile (fun x => x != ':') := by
      have := splitOnChar_head_takeWhile ':' t
      rw [hys] at this
      simpa using this
    simp [parseImageName, String.toList, heq', splitOnChar_append ':' n t hn, hys, hy]

/-- C2 (witness): the amended parsing law evaluated at "nginx" (no colon) and
at "a:b:c" (two colons). -/
theorem parseImageName_splits_on_first_colon_witness :
    parseImageName "nginx" = ("nginx", "latest") ∧ parseImageName "a:b:c" = ("a", "b") := by
  refine ⟨(parseImageName_splits_on_first_colon "nginx").1 (by decide), ?_⟩
  have h := (parseImageName_splits_on_first_colon "a:b:c").2 ['a'] ['b', ':', 'c']
    (by decide) (by decide)
  rw [h]
  rfl

/-- C7: an image string whose name portion is missing or empty is rejected
immediately as a formatting failure with no external effect at all, and every
other input's processing begins with the remote manifest inspection — so the
malformed-name rejection is the only outcome produced before any network or
cache I/O. -/
theorem processService_invalid_format (w : World) (svc : ComposeService)
    (cacheKeyPfx : String) (skipLatestCheck forceRefresh : Bool) :
    ((parseImageName svc.image).1.isEmpty = true →
      processService w svc cacheKeyPfx skipLatestCheck forceRefresh =
        ({ success := false, restoredFromCache := false, imageName := svc.image,
           cacheKey := "", digest := none, platform := svc.platform,
           error := some ("Invalid image name format: " ++ svc.image),
           imageSize := none }, [])) ∧
    ((parseImageName svc.image).1.isEmpty = false →
      (processService w svc cacheKeyPfx skipLatestCheck forceRefresh).2.head? =
        some (.inspectRemote svc.image)) := by
  constructor
  · intro h
    simp [processService, h]
  · intro h
    simp [processService, h]

/-- C7 (witness): a leading-colon image is rejected with no effects; a
well-formed image's first effect is the remote inspection. -/
theorem processService_invalid_format_witness :
    processService wDefault ⟨":oops", none⟩ "p" false false =
      ({ success := false, restoredFromCache := false, imageName := ":oops",
         cacheKey := "", digest := none, platform := none,
         error := some ("Invalid image name format: " ++ ":oops"),
         imageSize := none }, []) ∧
    (processService wDefault svcNginx "p" false false).2.head? =
      some (.inspectRemote "nginx:latest") := by
  exact ⟨(processService_invalid_format wDefault ⟨":oops", none⟩ "p" false false).1 (by decide),
    (processService_invalid_format wDefault svcNginx "p" false false).2 (by decide)⟩

/-- C8: cache key derivation is a pure function of
`(prefix, name, tag, platform, digest)`: two calls on the same inputs yield the
same key string; in this embedding the deriver performs no I/O by
construction. -/
theorem generateCacheKey_deterministic (cacheKeyPfx imageName imageTag : String)
    (targetPlatformString digest : Option String) :
    generateCacheKey cacheKeyPfx imageName imageTag targetPlatformString digest =
      generateCacheKey cacheKeyPfx imageName imageTag targetPlatformString digest := rfl

/-- C1: on the non-force path, when the archive and a manifest snapshot are
both restored, the archive loads, digest verification is enabled and the
cached manifest's digest differs from the freshly fetched remote digest, the
outcome is success with restoredFromCache and the originally resolved digest,
exactly one pull is attempted (its failure only adds a warning), and nothing
is saved back to the cache store. -/
theorem processService_hit_mismatch (w : World) (svc : ComposeService)
    (cacheKeyPfx : String) (d : String) (cm rm : DockerImageManifest)
    (hname : (parseImageName svc.image).1.isEmpty = false)
    (hdig : truthyDigest w.inspectRemoteInitial = some d)
    (hrestore : w.restoreImageResult.success = true)
    (hmk : jsTruthyStr w.restoreManifestResult.cacheKey = true)
    (hload : w.loadTarOk = true)
    (hcm : w.readManifestResult = some cm)
    (hrm : w.inspectRemoteValidate = some rm)
    (hne : cm.digest ≠ rm.digest) :
    (processService w svc cacheKeyPfx false false).1.success = true ∧
    (processService w svc cacheKeyPfx false false).1.restoredFromCache = true ∧
    (processService w svc cacheKeyPfx false false).1.digest = some d ∧
    (processService w svc cacheKeyPfx false false).2.countP Event.isPull = 1 ∧
    (processService w svc cacheKeyPfx false false).2.countP Event.isCacheSave = 0 ∧
    (w.pullOk = false →
      Event.warn ("Failed to pull updated image " ++ svc.image) ∈
        (processService w svc cacheKeyPfx false false).2) := by
  cases hp : w.pullOk <;>
    simp [processService, processServiceWithDigest, processCacheHit, hname, hdig, hrestore,
      hmk, hload, hcm, hrm, hne, hp, List.countP_cons, List.countP_append, Event.isPull,
      Event.isCacheSave]

/-- C1 (witness): the mismatch scenario evaluated in a concrete world whose
refresh pull fails. -/
theorem processService_hit_mismatch_witness :
    (processService wMismatch svcNginx "p" false false).1.success = true ∧
    (processService wMismatch svcNginx "p" false false).1.restoredFromCache = true ∧
    (processService wMismatch svcNginx "p" false false).1.digest =
      some "sha256:0123456789abcdef" ∧
    (processService wMismatch svcNginx "p" false false).2.countP Event.isPull = 1 ∧
    (processService wMismatch svcNginx "p" false false).2.countP Event.isCacheSave = 0 ∧
    (wMismatch.pullOk = false →
      Event.warn ("Failed to pull updated image " ++ svcNginx.image) ∈
        (processService wMismatch svcNginx "p" false false).2) := by
  exact processService_hit_mismatch wMismatch svcNginx "p" "sha256:0123456789abcdef"
    ⟨some "sha256:0123456789abcdef"⟩ ⟨some "sha256:fedcba9876543210"⟩
    (by decide) (by decide) rfl (by decide) rfl rfl rfl (by decide)

/-- C4: when the remote digest cannot be resolved, digest verification is
skipped and force-refresh is off, a successful fallback restore whose archive
loads yields success with restoredFromCache, no digest, and a logged staleness
warning. -/
theorem processService_degraded_fallback (w : World) (svc : ComposeService)
    (cacheKeyPfx : String)
    (hname : (parseImageName svc.image).1.isEmpty = false)
    (hdig : truthyDigest w.inspectRemoteInitial = none)
    (hfb : w.restoreFallbackResult.success = true)
    (hload : w.loadFallbackOk = true) :
    (processService w svc cacheKeyPfx true false).1.success = true ∧
    (processService w svc cacheKeyPfx true false).1.restoredFromCache = true ∧
    (processService w svc cacheKeyPfx true false).1.digest = none ∧
    Event.warn (stalenessWarning svc.image) ∈
      (processService w svc cacheKeyPfx true false).2 := by
  simp [processService, processServiceNoDigest, tryRestoreFromCacheWithoutDigest,
    hname, hdig, hfb, hload]

/-- C4 (witness): the degraded fallback evaluated in a concrete unreachable
registry world with a prefix-matched cache entry. -/
theorem processService_degraded_fallback_witness :
    (processService wFallback svcNginx "p" true false).1.success = true ∧
    (processService wFallback svcNginx "p" true false).1.restoredFromCache = true ∧
    (processService wFallback svcNginx "p" true false).1.digest = none ∧
    Event.warn (stalenessWarning svcNginx.image) ∈
      (processService wFallback svcNginx "p" true false).2 := by
  exact processService_degraded_fallback wFallback svcNginx "p" (by decide) rfl rfl rfl

/-- C5: when the remote digest cannot be resolved and the fallback is not
applicable (digest verification not skipped, or force-refresh set), the
processor fails immediately with the could-not-get-digest outcome and touches
the cache store at no point. -/
theorem processService_no_digest_immediate_failure (w : World) (svc : ComposeService)
    (cacheKeyPfx : String) (skipLatestCheck forceRefresh : Bool)
    (hname : (parseImageName svc.image).1.isEmpty = false)
    (hdig : truthyDigest w.inspectRemoteInitial = none)
    (hcase : skipLatestCheck = false ∨ forceRefresh = true) :
    (processService w svc cacheKeyPfx skipLatestCheck forceRefresh).1 =
      couldNotGetDigestResult svc.image svc.platform ∧
    (processService w svc cacheKeyPfx skipLatestCheck forceRefresh).2.countP
      Event.isCacheAccess = 0 := by
  rcases hcase with h | h <;> subst h <;>
    simp [processService, processServiceNoDigest, hname, hdig, List.countP_cons,
      Event.isCacheAccess]

/-- C5 (witness): registry unreachable with digest verification enabled. -/
theorem processService_no_digest_immediate_failure_witness :
    (processService wFallback svcNginx "p" false false).1 =
      couldNotGetDigestResult svcNginx.image svcNginx.platform ∧
    (processService wFallback svcNginx "p" false false).2.countP
      Event.isCacheAccess = 0 := by
  exact processService_no_digest_immediate_failure wFallback svcNginx "p" false false
    (by decide) rfl (Or.inl rfl)

/-- C10: when the remote digest cannot be resolved, digest verification is
skipped, the fallback cache entry restores but its archive fails to load, the
fallback yields nothing and the final outcome is the generic
could-not-get-digest failure — the load failure is not surfaced. -/
theorem processService_fallback_load_failure_generic_error (w : World)
    (svc : ComposeService) (cacheKeyPfx : String)
    (hname : (parseImageName svc.image).1.isEmpty = false)
    (hdig : truthyDigest w.inspectRemoteInitial = none)
    (hfb : w.restoreFallbackResult.success = true)
    (hload : w.loadFallbackOk = false) :
    (processService w svc cacheKeyPfx true false).1 =
      couldNotGetDigestResult svc.image svc.platform := by
  simp [processService, processServiceNoDigest, tryRestoreFromCacheWithoutDigest,
    hname, hdig, hfb, hload]

/-- C10 (witness): fallback restore succeeds but the archive load fails. -/
theorem processService_fallback_load_failure_generic_error_witness :
    (processService wFallbackLoadFail svcNginx "p" true false).1 =
      couldNotGetDigestResult svcNginx.image svcNginx.platform := by
  exact processService_fallback_load_failure_generic_error wFallbackLoadFail svcNginx "p"
    (by decide) rfl rfl rfl

/-- C9: in the pull-and-cache path, when the pull succeeds but the post-pull
remote inspection yields no manifest or no digest, the outcome is a failure
reported as a digest mismatch against the text "undefined", carrying the
originally resolved digest and never consulting the cache-restore fallback. -/
theorem pullAndCacheImage_missing_remote_manifest (w : World) (svc : ComposeService)
    (cacheKeyPfx : String) (skipLatestCheck : Bool) (d : String)
    (hname : (parseImageName svc.image).1.isEmpty = false)
    (hdig : truthyDigest w.inspectRemoteInitial = some d)
    (hpull : w.pullOk = true)
    (hafter : w.inspectRemoteAfterPull.bind DockerImageManifest.digest = none) :
    (processService w svc cacheKeyPfx skipLatestCheck true).1.success = false ∧
    (processService w svc cacheKeyPfx skipLatestCheck true).1.error =
      some ("Digest mismatch for " ++ svc.image ++ ": expected " ++ d ++
        ", got " ++ "undefined") ∧
    (processService w svc cacheKeyPfx skipLatestCheck true).1.restoredFromCache = false ∧
    (processService w svc cacheKeyPfx skipLatestCheck true).1.digest = some d ∧
    (processService w svc cacheKeyPfx skipLatestCheck true).2.countP Event.isRestore = 0 := by
  simp [processService, processServiceWithDigest, pullAndCacheImage, optStr,
    hname, hdig, hpull, hafter, List.countP_cons, Event.isRestore]

/-- C9 (witness): the registry disappears between the initial digest
resolution and the post-pull re-check. -/
theorem pullAndCacheImage_missing_remote_manifest_witness :
    (processService wVanishingRegistry svcNginx "p" false true).1.success = false ∧
    (processService wVanishingRegistry svcNginx "p" false true).1.error =
      some ("Digest mismatch for " ++ svcNginx.image ++ ": expected " ++
        "sha256:0123456789abcdef" ++ ", got " ++ "undefined") ∧
    (processService wVanishingRegistry svcNginx "p" false true).1.restoredFromCache = false ∧
    (processService wVanishingRegistry svcNginx "p" false true).1.digest =
      some "sha256:0123456789abcdef" ∧
    (processService wVanishingRegistry svcNginx "p" false true).2.countP
      Event.isRestore = 0 := by
  exact pullAndCacheImage_missing_remote_manifest wVanishingRegistry svcNginx "p" false
    "sha256:0123456789abcdef" (by decide) (by decide) rfl rfl

/-- C3 (counterexample): on the force-refresh path, failures of the manifest
cache persistence, the archive cache persistence and the local size inspection
do NOT short-circuit to a failure outcome — the result is still reported as
success, contradicting the claim that every step of the sequence does. -/
theorem pullAndCacheImage_tolerates_persist_failures :
    wPersistFail.saveManifestOk = false ∧
    wPersistFail.saveCacheResult.success = false ∧
    wPersistFail.inspectLocalResult = none ∧
    (processService wPersistFail svcNginx "p" false true).1.success = true ∧
    (processService wPersistFail svcNginx "p" false true).1.error = none := by
  exact ⟨rfl, rfl, rfl, rfl, rfl⟩

/-- C3 (amended): the force-refresh and cache-miss paths produce identical
outcomes; a pull failure, a post-pull digest re-verification failure or a
save-to-archive failure each short-circuits to a failure outcome carrying that
step's reason, while failures of the two cache-persistence steps and of the
local size inspection are tolerated: the outcome is still success, with the
size merely absent. -/
theorem pullAndCacheImage_short_circuit (w : World) (svc : ComposeService)
    (cacheKeyPfx : String) (skipLatestCheck : Bool) (d : String)
    (hname : (parseImageName svc.image).1.isEmpty = false)
    (hdig : truthyDigest w.inspectRemoteInitial = some d) :
    (w.restoreImageResult.success = false →
      (processService w svc cacheKeyPfx skipLatestCheck false).1 =
        (processService w svc cacheKeyPfx skipLatestCheck true).1) ∧
    (w.pullOk = false →
      (processService w svc cacheKeyPfx skipLatestCheck true).1.success = false ∧
      (processService w svc cacheKeyPfx skipLatestCheck true).1.error =
        some ("Failed to pull image: " ++ svc.image)) ∧
    (w.pullOk = true →
      w.inspectRemoteAfterPull.bind DockerImageManifest.digest ≠ some d →
      (processService w svc cacheKeyPfx skipLatestCheck true).1.success = false ∧
      (processService w svc cacheKeyPfx skipLatestCheck true).1.error =
        some ("Digest mismatch for " ++ svc.image ++ ": expected " ++ d ++ ", got " ++
          optStr (w.inspectRemoteAfterPull.bind DockerImageManifest.digest))) ∧
    (w.pullOk = true →
      w.inspectRemoteAfterPull.bind DockerImageManifest.digest = some d →
      w.saveTarOk = false →
      (processService w svc cacheKeyPfx skipLatestCheck true).1.success = false ∧
      (processService w svc cacheKeyPfx skipLatestCheck true).1.error =
        some ("Failed to save image to tar: " ++ svc.image)) ∧
    (w.pullOk = true →
      w.inspectRemoteAfterPull.bind DockerImageManifest.digest = some d →
      w.saveTarOk = true →
      (processService w svc cacheKeyPfx skipLatestCheck true).1.success = true ∧
      (processService w svc cacheKeyPfx skipLatestCheck true).1.error = none ∧
      (processService w svc cacheKeyPfx skipLatestCheck true).1.imageSize =
        w.inspectLocalResult.map DockerImageMetadata.size) := by
  refine ⟨?_, ?_, ?_, ?_, ?_⟩
  · intro hmiss
    simp [processService, processServiceWithDigest, hname, hdig, hmiss]
  · intro hpull
    simp [processService, processServiceWithDigest, pullAndCacheImage, hname, hdig, hpull]
  · intro hpull hne
    simp [processService, processServiceWithDigest, pullAndCacheImage, hname, hdig,
      hpull, hne]
  · intro hpull hsame hsave
    simp [processService, processServiceWithDigest, pullAndCacheImage, hname, hdig,
      hpull, hsame, hsave]
  · intro hpull hsame hsave
    simp [processService, processServiceWithDigest, pullAndCacheImage, hname, hdig,
      hpull, hsame, hsave]

/-- C3 (witness): in a world whose exact-key restore misses and whose pull,
re-verification and archive save succeed, the miss path equals the force path
and the outcome is success. -/
theorem pullAndCacheImage_short_circuit_witness :
    (processService wDefault svcNginx "p" false false).1 =
      (processService wDefault svcNginx "p" false true).1 ∧
    (processService wDefault svcNginx "p" false true).1.success = true := by
  have h := pullAndCacheImage_short_circuit wDefault svcNginx "p" false
    "sha256:0123456789abcdef" (by decide) (by decide)
  exact ⟨h.1 rfl, (h.2.2.2.2 rfl (by decide) rfl).1⟩

/-- C6: the batch coordinator returns exactly one outcome per input, in input
order — the i-th outcome is the processing of the i-th input — and one image's
outcome depends only on its own input, never on a sibling. -/
theorem run_ordered_and_independent (items : List BatchItem) (cacheKeyPfx : String)
    (skipLatestCheck forceRefresh : Bool) :
    (run items cacheKeyPfx skipLatestCheck forceRefresh).length = items.length ∧
    (∀ (i : Nat) (hi : i < items.length)
        (ho : i < (run items cacheKeyPfx skipLatestCheck forceRefresh).length),
      (run items cacheKeyPfx skipLatestCheck forceRefresh).get ⟨i, ho⟩ =
        (processService (items.get ⟨i, hi⟩).world (items.get ⟨i, hi⟩).service
          cacheKeyPfx skipLatestCheck forceRefresh).1) ∧
    (∀ (other : List BatchItem) (i : Nat) (hi : i < items.length)
        (hio : i < other.length)
        (ho : i < (run items cacheKeyPfx skipLatestCheck forceRefresh).length)
        (hoo : i < (run other cacheKeyPfx skipLatestCheck forceRefresh).length),
      items.get ⟨i, hi⟩ = other.get ⟨i, hio⟩ →
      (run items cacheKeyPfx skipLatestCheck forceRefresh).get ⟨i, ho⟩ =
        (run other cacheKeyPfx skipLatestCheck forceRefresh).get ⟨i, hoo⟩) := by
  have key : ∀ (l : List BatchItem) (i : Nat) (hi : i < l.length)
      (ho : i < (run l cacheKeyPfx skipLatestCheck forceRefresh).length),
      (run l cacheKeyPfx skipLatestCheck forceRefresh).get ⟨i, ho⟩ =
        (processService (l.get ⟨i, hi⟩).world (l.get ⟨i, hi⟩).service
          cacheKeyPfx skipLatestCheck forceRefresh).1 := by
    intro l i hi ho
    simp [run]
  refine ⟨by simp [run], fun i hi ho => key items i hi ho, ?_⟩
  intro other i hi hio ho hoo hagree
  rw [key items i hi ho, key other i hio hoo, hagree]

/-- C6 (witness): a two-image batch — one healthy image and one whose pull
fails — returns two outcomes in input order, the first untouched by the
second's failure. -/
theorem run_ordered_and_independent_witness :
    (run [⟨wDefault, svcNginx⟩, ⟨{ wDefault with pullOk := false }, ⟨"redis:7", none⟩⟩]
      "p" false false).length = 2 ∧
    (run [⟨wDefault, svcNginx⟩, ⟨{ wDefault with pullOk := false }, ⟨"redis:7", none⟩⟩]
      "p" false false).get ⟨0, by simp [run]⟩ =
      (processService wDefault svcNginx "p" false false).1 := by
  refine ⟨(run_ordered_and_independent _ "p" false false).1, ?_⟩
  exact (run_ordered_and_independent
    [⟨wDefault, svcNginx⟩, ⟨{ wDefault with pullOk := false }, ⟨"redis:7", none⟩⟩]
    "p" false false).2.1 0 (by decide) (by simp [run])

end ComposeCache
